import Mathlib

/-!
Shallow embedding of the Artemis manuscript-version detector
(src/artemis.py) together with proofs about its specification.

Conventions used throughout:
* Python tri-state values (True/False/None) are `Option Bool`
  (`some true` / `some false` / `none`).
* Python strings are `String`; a Python value that may be `None` is an
  `Option` of the corresponding type.
* Python exceptions that can escape a function are made explicit as
  `Except PyErr` results.
* External collaborators (the textract/docx2txt extractors, difflib
  similarity, cermine, the DOI resolution HTTP call, the publisher-logo
  database, the CC-licence catalogue and the DOI regex) are inputs to the
  embedded workflows: their outputs are fields of the input records.
  The decision logic, the tests computed from those artifacts, the fuzzy
  matcher and the result accumulator are translated from the source.
-/

namespace Artemis

/-- Python exceptions that the embedded code can raise. -/
inductive PyErr where
  | typeError
  | requestsError
deriving DecidableEq, Repr

/-- Modelled from the spec: `utils/constants.py` is not under `src/`; it
defines the version-label string constants `SMUR`, `AM`, `P`, `VOR`.
Per the spec the labels are Submitted / Accepted / Proof / VersionOfRecord;
the spec test vector "declared version `accepted manuscript` leads to
approval" in the editable-document workflow forces `AM` to be the
lower-case string "accepted manuscript" (the code compares
`dec_version.lower()` against these constants). -/
def SMUR : String := "submitted manuscript under review"

/-- Modelled from the spec: see `SMUR`. -/
def AM : String := "accepted manuscript"

/-- Modelled from the spec: see `SMUR`. -/
def P : String := "proof"

/-- Modelled from the spec: see `SMUR`. -/
def VOR : String := "version of record"

/-- `NUMBER_OF_CHARACTERS_IN_ONE_PAGE` from artemis.py. -/
def NUMBER_OF_CHARACTERS_IN_ONE_PAGE : Nat := 2600

/-- `PUBLISHER_PDF_METADATA_TAGS` from artemis.py. -/
def PUBLISHER_PDF_METADATA_TAGS : List String :=
  ["/CrossMarkDomains#5B1#5D",
   "/CrossMarkDomains#5B2#5D",
   "/CrossmarkDomainExclusive",
   "/CrossmarkMajorVersionDate",
   "/doi",
   "/ElsevierWebPDFSpecifications",
   "/Keywords"]

/-- Truthiness of a Python tri-state value (None and False are falsy). -/
def pyTruthy : Option Bool → Bool
  | some b => b
  | none => false

/-- Truthiness of an optional Python string (None and the empty string
are falsy). -/
def pyTruthyStr : Option String → Bool
  | some s => s ≠ ""
  | none => false

/-- `str.lower()` on the ASCII fragment used by the code. -/
def pyLower (s : String) : String :=
  String.mk (s.data.map Char.toLower)

/-- `"{}".format(x)` for an optional string: Python prints `None` for a
missing value. -/
def pyStrOfOptStr : Option String → String
  | some s => s
  | none => "None"

/-! ## Fuzzy matcher (BaseParser.find_match_in_extracted_text, lines 184-221)

The code builds a pattern string for the external `regex` library:
either the (escaped) query itself, or `query` followed by the fuzzy
quantifier `e<N` with `N = int(allowed_error_ratio * len(query))`,
and searches the normalized extracted text with `IGNORECASE`.
We model the pattern as structured data and the library's semantics on
literal queries: a plain literal pattern matches iff the literal occurs
as a substring; a fuzzy literal pattern with bound `e<N` matches iff
some substring is within Levenshtein distance strictly less than `N`
of the literal (insertions, deletions and substitutions each cost 1).
Case-insensitivity is modelled by lower-casing both sides. -/

/-- Levenshtein edit distance (unit-cost insert/delete/substitute)
between two character lists; the model of the number of errors the
`regex` library's fuzzy matching counts for a literal query. -/
def editDist (xs ys : List Char) : Nat :=
  levenshtein Levenshtein.defaultCost xs ys

/-- All contiguous substrings of a list (every infix is a prefix of a
suffix). -/
def infixes (l : List Char) : List (List Char) :=
  l.tails.flatMap List.inits

/-- The characters the external `regex.escape` (with its default
`special_only=True`) prefixes with a backslash. Modelled from the regex
library; only its effect on the pattern length matters to the code,
because `len(query)` is taken after the reassignment `query =
regex.escape(query)`. -/
def REGEX_METACHARS : List Char :=
  ['(', ')', '[', ']', '{', '}', '?', '*', '+', '|', '^', '$', '\\', '.', '-', '#', '&', '~']

/-- Model of `regex.escape(q)` (external library): backslash-escape
metacharacters and whitespace. -/
def regexEscape (q : String) : String :=
  String.mk (q.data.flatMap fun c =>
    if c ∈ REGEX_METACHARS ∨ c.isWhitespace then ['\\', c] else [c])

/-- Lower-cased character list of a string (model of `IGNORECASE`). -/
def lowerChars (s : String) : List Char :=
  s.data.map Char.toLower

/-- The pattern built at lines 202-205: either the plain (escaped)
query, or `query` followed by the fuzzy quantifier `e<N`.  Escaping
does not change which literal text the pattern denotes, so the pattern
carries the unescaped literal. -/
inductive RegexPattern where
  | plain (lit : String)
  | fuzzyLt (lit : String) (errLt : Nat)
deriving DecidableEq, Repr

/-- Model of `regex.search(pattern, text, flags=regex.IGNORECASE)` for
the literal patterns the code builds, reduced to whether a match exists.
`fuzzyLt lit n` (pattern `lit` followed by `e<n`) requires strictly
fewer than `n` errors. -/
def regexSearch (pat : RegexPattern) (text : String) : Bool :=
  match pat with
  | .plain lit => (infixes (lowerChars text)).any (fun sub => sub = lowerChars lit)
  | .fuzzyLt lit b => (infixes (lowerChars text)).any (fun sub => editDist (lowerChars lit) sub < b)

/-- Line 209: `extracted_text.replace('\n', ' ')`. -/
def removeLineBreaks (s : String) : String :=
  String.mk (s.data.map fun c => if c = '\n' then ' ' else c)

/-- Line 209: `.replace('  ', ' ')` — Python replaces non-overlapping
occurrences of two spaces in a single left-to-right pass. -/
def collapseDoubleSpace : List Char → List Char
  | ' ' :: ' ' :: rest => ' ' :: collapseDoubleSpace rest
  | c :: rest => c :: collapseDoubleSpace rest
  | [] => []

/-- The `continuous_text` of line 209. -/
def continuousText (s : String) : String :=
  String.mk (collapseDoubleSpace (removeLineBreaks s).data)

/-- Python `int()` truncation applied to a non-negative rational
product: `int(x)` truncates toward zero, which for the non-negative
error-ratio products the code computes is the floor. -/
def pyInt (q : ℚ) : Nat := ⌊q⌋.toNat

/-- `BaseParser.find_match_in_extracted_text` (lines 184-221), reduced
to whether a match is found (the code returns a dict for a match and
`None` otherwise; `expected_span` only sets a flag inside the returned
dict and cannot affect whether a match is returned).
`extracted_text` is the already-extracted text (the code re-runs
extraction when it is falsy, which re-produces the same text).
Python behaviours made explicit:
* a falsy `query` (None or the empty string) falls back to
  `self.dec_ms_title` (line 198-199);
* `regex.escape(None)` raises an uncaught `TypeError` (line 201);
* with `escape_char=False`, a `None` query reaches `len(None)` at line
  205 (uncaught `TypeError`) unless the ratio is zero, in which case
  `regex.search(None, ...)` raises a `TypeError` that IS caught by the
  `except TypeError` at line 219, so the function returns no match;
* `len(query)` at line 205 is evaluated after the escaping reassignment,
  so the fuzzy bound uses the escaped length;
* `int()` truncation of the non-negative ratio product is `Int.toNat`
  of the rational floor. -/
def find_match_in_extracted_text (dec_ms_title : Option String) (extracted_text : String)
    (query : Option String) (escape_char : Bool) ( allowed_error_ratio : ℚ) :
    Except PyErr Bool :=
  let q : Option String :=
    match query with
    | some qs => if qs = "" then dec_ms_title else some qs
    | none => dec_ms_title
  match q, escape_char with
  | none, true => .error .typeError
  | none, false =>
      if allowed_error_ratio = 0 then .ok false
      else .error .typeError
  | some qs, true =>
      -- len(query) is taken after the escaping reassignment
      let pat : RegexPattern :=
        if allowed_error_ratio = 0 then .plain qs
        else .fuzzyLt qs (pyInt ( allowed_error_ratio * ((regexEscape qs).length : ℚ)))
      .ok (regexSearch pat (continuousText extracted_text))
  | some qs, false =>
      let pat : RegexPattern :=
        if allowed_error_ratio = 0 then .plain qs
        else .fuzzyLt qs (pyInt ( allowed_error_ratio * (qs.length : ℚ)))
      .ok (regexSearch pat (continuousText extracted_text))

/-! ## ArtemisResult (lines 66-128)

In the source, `possible_versions` and `test_results` are *class-level*
mutable attributes of `ArtemisResult`: `exclude_versions` calls
`self.possible_versions.remove(v)` and `append_test_result` calls
`self.test_results.update(...)`, both of which mutate the class object,
while every other field is rebound by plain attribute assignment and is
therefore per-instance.  The embedding makes the class object explicit
as a `ClassState` value threaded through evaluations; constructing an
`ArtemisResult` does NOT reset it (only per-instance fields start
fresh).  `ClassState` at module import time is `initClassState`. -/

/-- A publisher logo record as used by the workflow: only its name and
the version labels it is consistent with (`metadata["indicate_ms_versions"]`). -/
structure Logo where
  name : String
  indicate_ms_versions : List String
deriving DecidableEq, Repr

/-- Heterogeneous values stored into `ArtemisResult.test_results`:
tri-state test outcomes, the publisher-tag list, the CC-licence match
(reduced to the matched text) and the detected-logo list. -/
inductive PyVal where
  | tri (b : Option Bool)
  | tags (l : List String)
  | matchres (m : Option String)
  | logos (l : List Logo)
deriving DecidableEq, Repr

/-- The class-level mutable state of `ArtemisResult`. -/
structure ClassState where
  possible_versions : List String
  test_results : List (String × PyVal)
deriving DecidableEq, Repr

/-- The class attributes as initialised at lines 70 and 76. -/
def initClassState : ClassState :=
  { possible_versions := [SMUR, AM, P, VOR], test_results := [] }

/-- Python `dict.update` with a single key: overwrite in place if the
key exists (dicts preserve insertion order), else append. -/
def dictUpdate (d : List (String × PyVal)) (k : String) (v : PyVal) :
    List (String × PyVal) :=
  if d.any (fun p => p.1 = k) then
    d.map (fun p => if p.1 = k then (k, v) else p)
  else d ++ [(k, v)]

/-- `ArtemisResult.append_test_result` (lines 96-98): record a test
result under the test function's name in the (class-level) map. -/
def append_test_result (s : ClassState) (test_name : String) (v : PyVal) : ClassState :=
  { s with test_results := dictUpdate s.test_results test_name v }

/-- `ArtemisResult.exclude_versions` (lines 119-128): for each version
in `e_list`, remove it from `possible_versions` if present (Python
`list.remove` deletes the first occurrence). -/
def exclude_versions (possible_versions : List String) (e_list : List String) : List String :=
  e_list.foldl (fun pv v => if v ∈ pv then pv.erase v else pv) possible_versions

/-! ## Heuristic tests translated from the source -/

/-- `BaseParser.test_length_of_extracted_text` (lines 287-301).
`if self.extracted_text:` is falsy for both `None` and the empty
string, so an empty extraction yields `None`, not `False`. -/
def test_length_of_extracted_text (extracted_text : Option String) (min_length : Nat) :
    Option Bool :=
  match extracted_text with
  | some t =>
      if t ≠ "" then
        if min_length ≤ t.length then some true else some false
      else none
  | none => none

/-- Outcome of the external `requests.get` call on the DOI URL:
a response whose `r.ok` is the given boolean, or a raised network
exception (e.g. `requests.exceptions.ConnectionError`). -/
inductive HttpOutcome where
  | success (ok : Bool)
  | raise
deriving DecidableEq, Repr

/-- `BaseParser.test_doi_resolves` (lines 303-321).  `metadata_doi` is
`self.metadata['doi']` (`none` models a missing key, whose `KeyError`
is caught and turned into a `None` result).  A falsy `doi` argument
falls back to the metadata DOI.  The `requests.get` call is NOT wrapped
in any handler: a network error propagates out as a raised exception. -/
def test_doi_resolves (metadata_doi : Option String) (resolver : String → HttpOutcome)
    (doi : Option String) : Except PyErr (Option Bool) :=
  let d : Option String :=
    match doi with
    | some dd => if dd = "" then metadata_doi else some dd
    | none => metadata_doi
  match d with
  | none => .ok none
  | some dd =>
      match resolver dd with
      | .success ok => .ok (some ok)
      | .raise => .error .requestsError

/-- `PdfParser.extract_publisher_tags_from_file_metadata` (lines
545-556): the publisher tags present in the file metadata with a truthy
value, in catalogue order. -/
def extract_publisher_tags_from_file_metadata (file_metadata : List (String × String)) :
    List String :=
  PUBLISHER_PDF_METADATA_TAGS.foldl
    (fun acc tag =>
      match (file_metadata.find? (fun p => p.1 = tag)) with
      | some p => if p.2 ≠ "" then acc ++ [tag] else acc
      | none => acc)
    []

/-! ## Workflow outputs -/

/-- The JSON response assembled by `ArtemisResult.json_response`
(lines 100-117), with the version-confidence weights kept as the raw
integer `*_prob` fields (the response divides each by 100 for display).
`test_results` is the class-level map at response time. -/
structure Output where
  input_file : String
  approve_deposit : Bool
  reason : Option String
  smur_prob : Nat
  am_prob : Nat
  p_prob : Nat
  vor_oa_prob : Nat
  vor_pw_prob : Nat
  sanity_check : Option Bool
  test_results : List (String × PyVal)
deriving DecidableEq, Repr

/-- The state written by a decision region: the (class-level) candidate
list plus the per-instance `sanity_check`, `approve_deposit`, `reason`. -/
structure DecisionOut where
  pv : List String
  sanity : Option Bool
  approve : Bool
  reason : Option String
deriving DecidableEq, Repr

/-- The version lists the fixed-layout decision compares the declared
version against (lines 720 and 728). -/
def authorVersionNames : List String :=
  ["submitted version", "accepted version", SMUR, AM]

/-- The decision step of `DocxParser.parse` (lines 393-405).
`sanity_check` and `approve_deposit` enter as their per-instance
defaults `None` / `False` and are only assigned in the branches the
source assigns them in. -/
def docxDecision (pv : List String) (long tm_fm tm_text : Option Bool)
    (dec_version : String) (dec_ms_title : Option String) (file_name : String) :
    DecisionOut :=
  if pyTruthy long && (pyTruthy tm_fm || pyTruthy tm_text) then
    if pyLower dec_version ∈ pv then
      { pv := pv, sanity := some true, approve := true,
        reason := some "Declared version is plausible" }
    else
      { pv := pv, sanity := some true, approve := false,
        reason := some ("This is either a submitted or accepted version, but declared version is "
          ++ dec_version) }
  else
    if pyTruthy long then
      { pv := pv, sanity := none, approve := false,
        reason := some ("Could not find declared title (" ++ pyStrOfOptStr dec_ms_title
          ++ ") in file " ++ file_name) }
    else
      { pv := pv, sanity := none, approve := false,
        reason := some ("File " ++ file_name
          ++ " is quite short for a journal article. Please check.") }

/-- The decision region of `PdfParser.parse` (lines 712-739).  In the
publisher-generated branch the mismatch-warning reason assigned at line
721 is overwritten by both subsequent branches, exactly as in the
source. -/
def pdfDecision (pv : List String) (long tm_fm tm_text : Option Bool)
    (tags : List String) (cc : Option String)
    (dec_version : String) (dec_ms_title : Option String) (file_name : String) :
    DecisionOut :=
  if pyTruthy long && (pyTruthy tm_fm || pyTruthy tm_text) then
    if tags ≠ [] || cc.isSome then
      let pv1 := exclude_versions pv [SMUR, AM]
      let _reason1 : Option String :=
        if pyLower dec_version ∈ authorVersionNames then
          some "PDF metadata contains publisher tags, but declared version is author-generated"
        else none
      if cc.isSome then
        { pv := pv1, sanity := some true, approve := true,
          reason := some "Create Commons licence detected in extracted text" }
      else
        { pv := pv1, sanity := some true, approve := false,
          reason := some "Publisher-generated version; no evidence of CC licence" }
    else
      if pyLower dec_version ∈ authorVersionNames then
        { pv := pv, sanity := some true, approve := true,
          reason := some "Could not find any evidence that this PDF is publisher-generated" }
      else
        { pv := pv, sanity := some true, approve := false,
          reason := some ("This is either a submitted or accepted version, but declared version is "
            ++ dec_version) }
  else
    if pyTruthy long then
      { pv := pv, sanity := none, approve := false,
        reason := some ("Could not find declared title (" ++ pyStrOfOptStr dec_ms_title
          ++ ") in file " ++ file_name) }
    else
      { pv := pv, sanity := none, approve := false,
        reason := some ("File " ++ file_name
          ++ " is quite short for a journal article. Please check.") }

/-! ## Workflow inputs

The fields below are the artifacts the workflows obtain from external
collaborators, plus the caller-supplied declared metadata.  The
tri-state outcomes of the two `SequenceMatcher`-based title tests and of
the fuzzy title search over the full extracted text are supplied as
inputs (difflib and the full-text search over documents are external
computations; the matcher itself is modelled above for the claims about
it), as are the DOI-pattern match, the CC-catalogue search result and
the cermine outputs. -/

/-- Inputs of one `DocxParser.parse` evaluation. -/
structure DocxInputs where
  file_name : String
  dec_ms_title : Option String
  dec_version : String
  /-- outcome of `test_title_match_in_file_metadata('title')` (lines 249-269) -/
  title_match_file_metadata : Option Bool
  /-- `self.extracted_text` after `extract_text()` (docx2txt) -/
  extracted_text : Option String
  /-- outcome of `test_title_match_in_extracted_text()` (lines 271-285) -/
  title_match_extracted_text : Option Bool
deriving Repr

/-- Inputs of one `PdfParser.parse` evaluation. -/
structure PdfInputs where
  file_name : String
  dec_ms_title : Option String
  dec_version : String
  /-- `self.metadata['doi']` (`none` models a missing key) -/
  metadata_doi : Option String
  /-- the PDF document-info mapping read by `extract_file_metadata` -/
  file_metadata : List (String × String)
  /-- outcome of `test_title_match_in_file_metadata('/Title')` -/
  title_match_file_metadata : Option Bool
  /-- `self.extracted_text` after `extract_text()` and its fallbacks -/
  extracted_text : Option String
  /-- outcome of `test_title_match_in_extracted_text()` -/
  title_match_extracted_text : Option Bool
  /-- the DOI-shaped token found by `find_doi_in_extracted_text` (the
  `'match'` entry of the returned dict), if any -/
  doi_in_extracted_text : Option String
  /-- the CC-licence catalogue search result (matched text), if any -/
  cc_match_extracted_text : Option String
  /-- `self.cerm_doi` after `parse_cermxml()` -/
  cerm_doi : Option String
  /-- outcome of `test_title_match_cermxml()` (lines 558-574) -/
  title_match_cermine_xml : Option Bool
  /-- outcome of `test_file_has_image_on_first_page()` (lines 536-543) -/
  image_on_first_page : Bool
  /-- outcome of `detect_publisher_logos()` (lines 509-534) -/
  detected_logos : List Logo
  /-- the DOI resolution endpoint (`requests.get` on `DOI_BASE_URL + doi`) -/
  resolver : String → HttpOutcome

/-- `DocxParser.parse` (lines 359-407): the editable-document workflow.
Takes the class state of `ArtemisResult` at construction time and
returns the class state after the evaluation together with the JSON
response.  No exception can escape this workflow in the model (the
declared version is a string and no network call is made). -/
def DocxParser.parse (s : ClassState) (inp : DocxInputs) : ClassState × Output :=
  -- r = ArtemisResult(file_name); r.exclude_versions([P, VOR])
  let s1 : ClassState :=
    { s with possible_versions := exclude_versions s.possible_versions [P, VOR] }
  -- per-instance weights: smur/am = 5000, p/vor = 0
  -- file metadata test
  let tm_fm := inp.title_match_file_metadata
  let s2 := append_test_result s1 "test_title_match_in_file_metadata" (.tri tm_fm)
  -- extracted text tests
  let long := test_length_of_extracted_text inp.extracted_text
    (3 * NUMBER_OF_CHARACTERS_IN_ONE_PAGE)
  let s3 := append_test_result s2 "test_length_of_extracted_text" (.tri long)
  let tm_text := inp.title_match_extracted_text
  let s4 := append_test_result s3 "test_title_match_in_extracted_text" (.tri tm_text)
  -- decision
  let d := docxDecision s4.possible_versions long tm_fm tm_text
    inp.dec_version inp.dec_ms_title inp.file_name
  let s5 : ClassState := { s4 with possible_versions := d.pv }
  (s5,
   { input_file := inp.file_name, approve_deposit := d.approve, reason := d.reason,
     smur_prob := 5000, am_prob := 5000, p_prob := 0, vor_oa_prob := 0, vor_pw_prob := 0,
     sanity_check := d.sanity, test_results := s5.test_results })

/-- The publisher-tag exclusions of lines 637-642, as performed on the
class-level candidate list when at least one tag was detected. -/
def pvExcludeTags (pv : List String) (tags : List String) : List String :=
  if tags ≠ [] then
    exclude_versions (exclude_versions pv ["submitted version", SMUR]) ["accepted version", AM]
  else pv

/-- The logo refinement of lines 698-709: when at least one logo was
detected, exclude every candidate not suggested by a detected logo.
`suggested_versions` is the duplicate-free concatenation of the logos'
compatible-version lists (lines 700-704); iterating
`reversed(possible_versions)` while removing the current element is
equivalent to this fold over the reversed snapshot. -/
def pvLogoRefine (pv : List String) (logos : List Logo) : List String :=
  let suggested := logos.foldl
    (fun acc dl => dl.indicate_ms_versions.foldl
      (fun a v => if v ∈ a then a else a ++ [v]) acc) []
  let pvAfterLogos := pv.reverse.foldl
    (fun pv2 v => if v ∈ suggested then pv2 else exclude_versions pv2 [v]) pv
  if logos ≠ [] then pvAfterLogos else pv

/-- The pure part of `PdfParser.parse` (lines 598-741), given the
already-computed outcomes of the two DOI-resolution tests (`none` means
the corresponding test was not run because no DOI was available).  The
two resolution calls are the only effects that can raise; hoisting them
out (see `PdfParser.parse`) leaves every recorded result and the final
response unchanged. -/
def PdfParser.parsePure (s : ClassState) (inp : PdfInputs)
    (doiText cermDoi : Option (Option Bool)) : ClassState × Output :=
  -- per-instance weights: 2500/2500/2500/1250/1250
  -- region file metadata tests
  let tm_fm := inp.title_match_file_metadata
  let s1 := append_test_result s "test_title_match_in_file_metadata" (.tri tm_fm)
  let tags := extract_publisher_tags_from_file_metadata inp.file_metadata
  let s2 := append_test_result s1 "extract_publisher_tags_from_file_metadata" (.tags tags)
  -- the class-level candidate list here is still the one at entry
  let pv3 := pvExcludeTags s.possible_versions tags
  let s3 : ClassState := { s2 with possible_versions := pv3 }
  let smur_prob : Nat := if tags ≠ [] then 0 else 2500
  let am_prob : Nat := if tags ≠ [] then 0 else 2500
  -- region extracted text tests
  let long := test_length_of_extracted_text inp.extracted_text
    (3 * NUMBER_OF_CHARACTERS_IN_ONE_PAGE)
  let s4 := append_test_result s3 "test_length_of_extracted_text" (.tri long)
  let tm_text := inp.title_match_extracted_text
  let s5 := append_test_result s4 "test_title_match_in_extracted_text" (.tri tm_text)
  let s6 : ClassState :=
    match doiText with
    | none => s5
    | some b => append_test_result s5 "test_valid_doi_in_extracted_text" (.tri b)
  let cc := inp.cc_match_extracted_text
  let s7 := append_test_result s6 "find_cc_statement_in_extracted_text" (.matchres cc)
  -- region cermine tests
  let s8 : ClassState :=
    match cermDoi with
    | none => s7
    | some b => append_test_result s7 "test_valid_doi_in_cermine_xml" (.tri b)
  let tm_cerm := inp.title_match_cermine_xml
  let s9 := append_test_result s8 "test_title_match_cermxml" (.tri tm_cerm)
  -- region logo tests
  let s10 := append_test_result s9 "test_file_has_image_on_first_page"
    (.tri (some inp.image_on_first_page))
  let logos := inp.detected_logos
  let s11 := append_test_result s10 "detect_publisher_logos" (.logos logos)
  -- the class-level candidate list here is pv3
  let pv12 := pvLogoRefine pv3 logos
  let s12 : ClassState := { s11 with possible_versions := pv12 }
  -- region decision
  let d := pdfDecision pv12 long tm_fm tm_text tags cc
    inp.dec_version inp.dec_ms_title inp.file_name
  let s13 : ClassState := { s12 with possible_versions := d.pv }
  (s13,
   { input_file := inp.file_name, approve_deposit := d.approve, reason := d.reason,
     smur_prob := smur_prob, am_prob := am_prob,
     p_prob := 2500, vor_oa_prob := 1250, vor_pw_prob := 1250,
     sanity_check := d.sanity, test_results := s13.test_results })

/-- `PdfParser.parse` (lines 598-741): the fixed-layout workflow.  The
two DOI-resolution tests (lines 657-663 and 674-678) call the network
without any exception handler, so a raised network error aborts the
whole evaluation; both calls happen before the decision region and all
other steps are pure, so they are evaluated first here. -/
def PdfParser.parse (s : ClassState) (inp : PdfInputs) :
    Except PyErr (ClassState × Output) :=
  match inp.doi_in_extracted_text with
  | some dmatch =>
      (match test_doi_resolves inp.metadata_doi inp.resolver (some dmatch) with
       | .error e => .error e
       | .ok b1 =>
          match inp.cerm_doi with
          | some cd =>
              (match test_doi_resolves inp.metadata_doi inp.resolver (some cd) with
               | .error e => .error e
               | .ok b2 => .ok (PdfParser.parsePure s inp (some b1) (some b2)))
          | none => .ok (PdfParser.parsePure s inp (some b1) none))
  | none =>
      match inp.cerm_doi with
      | some cd =>
          (match test_doi_resolves inp.metadata_doi inp.resolver (some cd) with
           | .error e => .error e
           | .ok b2 => .ok (PdfParser.parsePure s inp none (some b2)))
      | none => .ok (PdfParser.parsePure s inp none none)

/-- The candidate-version list just before the decision region of
`PdfParser.parse` (after the publisher-tag exclusions of lines 637-642
and the logo refinement of lines 698-709), extracted from
`PdfParser.parsePure` for reasoning about the final candidate set. -/
def pdfPvBeforeDecision (s : ClassState) (inp : PdfInputs) : List String :=
  pvLogoRefine
    (pvExcludeTags s.possible_versions (extract_publisher_tags_from_file_metadata inp.file_metadata))
    inp.detected_logos

/-! ## Claim-side definitions

These two definitions follow the SPEC's words (claim C5), for comparison
with the matcher translated from the source: "the fuzzy search allows
exactly floor(max_error_ratio × len(needle)) edit operations
(insert/delete/substitute), where len(needle) is the length of the
needle as given by the caller". -/

/-- The error budget the spec claims: `floor(ratio * len(needle))`,
with the needle's length as given by the caller (no escaping). -/
def specErrorBudget (ratio : ℚ) (needle : String) : Nat :=
  pyInt (ratio * (needle.length : ℚ))

/-- A match as the spec describes it: some substring of the normalized
haystack within `specErrorBudget` edit operations of the needle,
case-insensitively. -/
def specFuzzyMatch (ratio : ℚ) (needle hay : String) : Prop :=
  ∃ sub, sub <:+: lowerChars (continuousText hay) ∧
    editDist (lowerChars needle) sub ≤ specErrorBudget ratio needle

/-! ## Concrete evaluation fixtures used by witnesses and counterexamples -/

/-- A 7800-character extracted text (three full pages), long enough for
`test_length_of_extracted_text` to succeed. -/
def longText : String := String.mk (List.replicate 7800 'a')

/-- An editable-document evaluation that is approved: sane length,
matching metadata title, declared version "Accepted Manuscript". -/
def docxApproveInputs : DocxInputs :=
  { file_name := "paper.docx", dec_ms_title := some "A Study", dec_version := "Accepted Manuscript",
    title_match_file_metadata := some true,
    extracted_text := some longText,
    title_match_extracted_text := some true }

/-- A fixed-layout evaluation that is approved: no publisher evidence,
declared version "accepted manuscript". -/
def pdfApproveInputs : PdfInputs :=
  { file_name := "paper.pdf", dec_ms_title := some "A Study", dec_version := "accepted manuscript",
    metadata_doi := none, file_metadata := [],
    title_match_file_metadata := some true,
    extracted_text := some longText,
    title_match_extracted_text := some true,
    doi_in_extracted_text := none, cc_match_extracted_text := none,
    cerm_doi := none, title_match_cermine_xml := none,
    image_on_first_page := false, detected_logos := [],
    resolver := fun _ => .success true }

/-- A short editable document, used to exhibit the class-level state
surviving into the next evaluation. -/
def docxLeakInputs : DocxInputs :=
  { file_name := "first.docx", dec_ms_title := some "T", dec_version := "accepted manuscript",
    title_match_file_metadata := some false,
    extracted_text := some "short",
    title_match_extracted_text := some false }

/-- The fixed-layout evaluation run after `docxLeakInputs`. -/
def pdfLeakInputs : PdfInputs :=
  { file_name := "second.pdf", dec_ms_title := some "U", dec_version := "accepted manuscript",
    metadata_doi := none, file_metadata := [],
    title_match_file_metadata := some false,
    extracted_text := some "tiny",
    title_match_extracted_text := some false,
    doi_in_extracted_text := none, cc_match_extracted_text := none,
    cerm_doi := none, title_match_cermine_xml := none,
    image_on_first_page := false, detected_logos := [],
    resolver := fun _ => .success true }

/-- An editable document whose extracted text has length 0. -/
def docxEmptyTextInputs : DocxInputs :=
  { file_name := "empty.docx", dec_ms_title := some "T", dec_version := "accepted manuscript",
    title_match_file_metadata := some true,
    extracted_text := some "",
    title_match_extracted_text := some true }

/-- A fixed-layout document whose extracted text has length 0. -/
def pdfEmptyTextInputs : PdfInputs :=
  { file_name := "empty.pdf", dec_ms_title := some "T", dec_version := "accepted manuscript",
    metadata_doi := none, file_metadata := [],
    title_match_file_metadata := some true,
    extracted_text := some "",
    title_match_extracted_text := some true,
    doi_in_extracted_text := none, cc_match_extracted_text := none,
    cerm_doi := none, title_match_cermine_xml := none,
    image_on_first_page := false, detected_logos := [],
    resolver := fun _ => .success true }

/-- A fixed-layout document with a DOI in its text whose resolution
request fails at the network level. -/
def pdfNetworkFailInputs : PdfInputs :=
  { file_name := "net.pdf", dec_ms_title := some "T", dec_version := "accepted manuscript",
    metadata_doi := none, file_metadata := [],
    title_match_file_metadata := some true,
    extracted_text := some longText,
    title_match_extracted_text := some true,
    doi_in_extracted_text := some "10.1000/xyz123",
    cc_match_extracted_text := none,
    cerm_doi := none, title_match_cermine_xml := none,
    image_on_first_page := false, detected_logos := [],
    resolver := fun _ => .raise }

/-- A fixed-layout document with a non-empty publisher metadata tag, no
CC-licence match and declared version "accepted manuscript". -/
def pdfPublisherInputs : PdfInputs :=
  { file_name := "pub.pdf", dec_ms_title := some "T", dec_version := "accepted manuscript",
    metadata_doi := none,
    file_metadata := [("/doi", "10.1000/xyz123"), ("/Title", "T")],
    title_match_file_metadata := some true,
    extracted_text := some longText,
    title_match_extracted_text := some true,
    doi_in_extracted_text := none, cc_match_extracted_text := none,
    cerm_doi := none, title_match_cermine_xml := none,
    image_on_first_page := true, detected_logos := [],
    resolver := fun _ => .success true }

end Artemis

deriving instance DecidableEq for Except

namespace Artemis

/-! ## Helper lemmas -/

theorem editDist_eq_zero_iff (a b : List Char) : editDist a b = 0 ↔ a = b := by
  unfold editDist
  induction a generalizing b with
  | nil =>
      cases b with
      | nil => simp
      | cons y ys => simp [Nat.add_eq_zero]
  | cons x xs ih =>
      cases b with
      | nil => simp [Nat.add_eq_zero]
      | cons y ys =>
          rw [levenshtein_cons_cons]
          simp only [Levenshtein.defaultCost_delete, Levenshtein.defaultCost_insert,
            Levenshtein.defaultCost_substitute, Nat.min_eq_zero_iff, Nat.add_eq_zero]
          constructor
          · rintro (⟨h1, -⟩ | ⟨h1, -⟩ | ⟨hsub, hrec⟩)
            · omega
            · omega
            · by_cases hxy : x = y
              · subst hxy
                rw [(ih ys).mp hrec]
              · rw [if_neg hxy] at hsub
                omega
          · intro h
            injection h with h1 h2
            subst h1
            subst h2
            right
            right
            exact ⟨by simp, (ih xs).mpr rfl⟩

theorem mem_infixes (s l : List Char) : s ∈ infixes l ↔ s <:+: l := by
  unfold infixes
  rw [List.mem_flatMap]
  constructor
  · rintro ⟨t, ht, hs⟩
    exact List.infix_iff_prefix_suffix.mpr
      ⟨t, (List.mem_inits s t).mp hs, (List.mem_tails t l).mp ht⟩
  · intro h
    obtain ⟨t, hp, hsuf⟩ := List.infix_iff_prefix_suffix.mp h
    exact ⟨t, (List.mem_tails t l).mpr hsuf, (List.mem_inits s t).mpr hp⟩

theorem exclude_versions_nil (pv : List String) : exclude_versions pv [] = pv := rfl

theorem exclude_versions_cons (pv : List String) (a : String) (e : List String) :
    exclude_versions pv (a :: e) = exclude_versions (pv.erase a) e := by
  unfold exclude_versions
  rw [List.foldl_cons]
  by_cases h : a ∈ pv
  · rw [if_pos h]
  · rw [if_neg h, List.erase_of_not_mem h]

theorem exclude_versions_eq_filter (pv e : List String) (hnd : pv.Nodup) :
    exclude_versions pv e = pv.filter (fun x => decide (x ∉ e)) := by
  induction e generalizing pv with
  | nil => simp [exclude_versions_nil]
  | cons a e ih =>
      rw [exclude_versions_cons, ih (pv.erase a) (hnd.erase a),
        List.Nodup.erase_eq_filter hnd a, List.filter_filter]
      apply List.filter_congr
      intro x _
      by_cases hxa : x = a
      · subst hxa; simp
      · simp [hxa]

theorem exclude_versions_nodup (pv e : List String) (hnd : pv.Nodup) :
    (exclude_versions pv e).Nodup := by
  rw [exclude_versions_eq_filter pv e hnd]
  exact hnd.filter _

theorem not_mem_exclude_versions (pv e : List String) (v : String)
    (hnd : pv.Nodup) (hv : v ∈ e) : v ∉ exclude_versions pv e := by
  rw [exclude_versions_eq_filter pv e hnd]
  intro hmem
  have := List.of_mem_filter hmem
  simp at this
  exact this hv

theorem pvExcludeTags_nodup (pv tags : List String) (hnd : pv.Nodup) :
    (pvExcludeTags pv tags).Nodup := by
  unfold pvExcludeTags
  split
  · exact exclude_versions_nodup _ _ (exclude_versions_nodup _ _ hnd)
  · exact hnd

theorem pvLogoRefine_fold_nodup (sugg : List String) (l pv : List String) (hnd : pv.Nodup) :
    (l.foldl (fun pv2 v => if v ∈ sugg then pv2 else exclude_versions pv2 [v]) pv).Nodup := by
  induction l generalizing pv with
  | nil => exact hnd
  | cons a l ih =>
      rw [List.foldl_cons]
      apply ih
      split
      · exact hnd
      · exact exclude_versions_nodup _ _ hnd

theorem pvLogoRefine_nodup (pv : List String) (logos : List Logo) (hnd : pv.Nodup) :
    (pvLogoRefine pv logos).Nodup := by
  unfold pvLogoRefine
  split
  · exact pvLogoRefine_fold_nodup _ _ _ hnd
  · exact hnd

theorem pdfPvBeforeDecision_nodup (s : ClassState) (inp : PdfInputs)
    (hnd : s.possible_versions.Nodup) : (pdfPvBeforeDecision s inp).Nodup :=
  pvLogoRefine_nodup _ _ (pvExcludeTags_nodup _ _ hnd)

theorem longText_length : longText.length = 7800 := by
  rw [longText, String.length_mk, List.length_replicate]

theorem longText_long :
    test_length_of_extracted_text (some longText) (3 * NUMBER_OF_CHARACTERS_IN_ONE_PAGE) =
      some true := by
  have h1 : longText ≠ "" := by
    intro h
    have h2 : (7800 : Nat) = 0 := by
      calc (7800 : Nat) = longText.length := longText_length.symm
        _ = ("" : String).length := by rw [h]
        _ = 0 := rfl
    omega
  have h2 : 3 * NUMBER_OF_CHARACTERS_IN_ONE_PAGE ≤ longText.length := by
    rw [longText_length]
    norm_num [NUMBER_OF_CHARACTERS_IN_ONE_PAGE]
  simp [test_length_of_extracted_text, h1, h2]

/-! ### Facts about the decision regions -/

theorem docxDecision_approve_sanity (pv : List String) (long tm_fm tm_text : Option Bool)
    (dv : String) (dt : Option String) (fn : String)
    (h : (docxDecision pv long tm_fm tm_text dv dt fn).approve = true) :
    (docxDecision pv long tm_fm tm_text dv dt fn).sanity = some true := by
  unfold docxDecision at h ⊢
  repeat' split at h
  all_goals simp_all

theorem pdfDecision_approve_sanity (pv : List String) (long tm_fm tm_text : Option Bool)
    (tags : List String) (cc : Option String) (dv : String) (dt : Option String) (fn : String)
    (h : (pdfDecision pv long tm_fm tm_text tags cc dv dt fn).approve = true) :
    (pdfDecision pv long tm_fm tm_text tags cc dv dt fn).sanity = some true := by
  unfold pdfDecision at h ⊢
  repeat' split at h
  all_goals simp_all

theorem docxDecision_sanity_cases (pv : List String) (long tm_fm tm_text : Option Bool)
    (dv : String) (dt : Option String) (fn : String) :
    (docxDecision pv long tm_fm tm_text dv dt fn).sanity = none ∨
      (docxDecision pv long tm_fm tm_text dv dt fn).sanity = some true := by
  unfold docxDecision
  repeat' split
  all_goals simp

theorem pdfDecision_sanity_cases (pv : List String) (long tm_fm tm_text : Option Bool)
    (tags : List String) (cc : Option String) (dv : String) (dt : Option String) (fn : String) :
    (pdfDecision pv long tm_fm tm_text tags cc dv dt fn).sanity = none ∨
      (pdfDecision pv long tm_fm tm_text tags cc dv dt fn).sanity = some true := by
  unfold pdfDecision
  repeat' split
  all_goals simp

theorem docxDecision_not_long (pv : List String) (long tm_fm tm_text : Option Bool)
    (dv : String) (dt : Option String) (fn : String) (h : pyTruthy long = false) :
    (docxDecision pv long tm_fm tm_text dv dt fn).sanity = none ∧
      (docxDecision pv long tm_fm tm_text dv dt fn).approve = false := by
  unfold docxDecision
  rw [h]
  simp

theorem pdfDecision_not_long (pv : List String) (long tm_fm tm_text : Option Bool)
    (tags : List String) (cc : Option String) (dv : String) (dt : Option String) (fn : String)
    (h : pyTruthy long = false) :
    (pdfDecision pv long tm_fm tm_text tags cc dv dt fn).sanity = none ∧
      (pdfDecision pv long tm_fm tm_text tags cc dv dt fn).approve = false := by
  unfold pdfDecision
  rw [h]
  simp

theorem pdfDecision_publisher_no_cc (pv : List String) (long tm_fm tm_text : Option Bool)
    (tags : List String) (dv : String) (dt : Option String) (fn : String)
    (hs : (pyTruthy long && (pyTruthy tm_fm || pyTruthy tm_text)) = true) (ht : tags ≠ []) :
    pdfDecision pv long tm_fm tm_text tags none dv dt fn =
      { pv := exclude_versions pv [SMUR, AM], sanity := some true, approve := false,
        reason := some "Publisher-generated version; no evidence of CC licence" } := by
  unfold pdfDecision
  rw [hs]
  simp [ht]

/-! ### Projection lemmas relating the workflows to their decision regions -/

theorem DocxParser.parse_decision (s : ClassState) (inp : DocxInputs) :
    (DocxParser.parse s inp).2.sanity_check =
        (docxDecision (exclude_versions s.possible_versions [P, VOR])
          (test_length_of_extracted_text inp.extracted_text (3 * NUMBER_OF_CHARACTERS_IN_ONE_PAGE))
          inp.title_match_file_metadata inp.title_match_extracted_text
          inp.dec_version inp.dec_ms_title inp.file_name).sanity ∧
      (DocxParser.parse s inp).2.approve_deposit =
        (docxDecision (exclude_versions s.possible_versions [P, VOR])
          (test_length_of_extracted_text inp.extracted_text (3 * NUMBER_OF_CHARACTERS_IN_ONE_PAGE))
          inp.title_match_file_metadata inp.title_match_extracted_text
          inp.dec_version inp.dec_ms_title inp.file_name).approve :=
  ⟨rfl, rfl⟩

theorem PdfParser.parsePure_decision (s : ClassState) (inp : PdfInputs)
    (dt cd : Option (Option Bool)) :
    (PdfParser.parsePure s inp dt cd).2.sanity_check =
        (pdfDecision (pdfPvBeforeDecision s inp)
          (test_length_of_extracted_text inp.extracted_text (3 * NUMBER_OF_CHARACTERS_IN_ONE_PAGE))
          inp.title_match_file_metadata inp.title_match_extracted_text
          (extract_publisher_tags_from_file_metadata inp.file_metadata)
          inp.cc_match_extracted_text inp.dec_version inp.dec_ms_title inp.file_name).sanity ∧
      (PdfParser.parsePure s inp dt cd).2.approve_deposit =
        (pdfDecision (pdfPvBeforeDecision s inp)
          (test_length_of_extracted_text inp.extracted_text (3 * NUMBER_OF_CHARACTERS_IN_ONE_PAGE))
          inp.title_match_file_metadata inp.title_match_extracted_text
          (extract_publisher_tags_from_file_metadata inp.file_metadata)
          inp.cc_match_extracted_text inp.dec_version inp.dec_ms_title inp.file_name).approve ∧
      (PdfParser.parsePure s inp dt cd).2.reason =
        (pdfDecision (pdfPvBeforeDecision s inp)
          (test_length_of_extracted_text inp.extracted_text (3 * NUMBER_OF_CHARACTERS_IN_ONE_PAGE))
          inp.title_match_file_metadata inp.title_match_extracted_text
          (extract_publisher_tags_from_file_metadata inp.file_metadata)
          inp.cc_match_extracted_text inp.dec_version inp.dec_ms_title inp.file_name).reason ∧
      (PdfParser.parsePure s inp dt cd).1.possible_versions =
        (pdfDecision (pdfPvBeforeDecision s inp)
          (test_length_of_extracted_text inp.extracted_text (3 * NUMBER_OF_CHARACTERS_IN_ONE_PAGE))
          inp.title_match_file_metadata inp.title_match_extracted_text
          (extract_publisher_tags_from_file_metadata inp.file_metadata)
          inp.cc_match_extracted_text inp.dec_version inp.dec_ms_title inp.file_name).pv ∧
      (PdfParser.parsePure s inp dt cd).2.smur_prob =
        (if extract_publisher_tags_from_file_metadata inp.file_metadata ≠ [] then 0 else 2500) ∧
      (PdfParser.parsePure s inp dt cd).2.am_prob =
        (if extract_publisher_tags_from_file_metadata inp.file_metadata ≠ [] then 0 else 2500) :=
  ⟨rfl, rfl, rfl, rfl, rfl, rfl⟩

theorem PdfParser.parse_ok_inv (s : ClassState) (inp : PdfInputs) (r : ClassState × Output)
    (h : PdfParser.parse s inp = Except.ok r) :
    ∃ dt cd, r = PdfParser.parsePure s inp dt cd := by
  unfold PdfParser.parse at h
  repeat' split at h
  all_goals first
    | exact Except.noConfusion h
    | exact ⟨_, _, (Except.ok.inj h).symm⟩

theorem test_doi_resolves_raise (md : Option String) (res : String → HttpOutcome) (d : String)
    (hne : d ≠ "") (hraise : res d = .raise) :
    test_doi_resolves md res (some d) = Except.error PyErr.requestsError := by
  unfold test_doi_resolves
  simp only [if_neg hne]
  rw [hraise]

/-! ## Claims -/

/-- C1: For every document evaluation (both the editable-document
workflow `DocxParser.parse` and the fixed-layout workflow
`PdfParser.parse`), if the final result has `approve_deposit = True`
then `sanity_check = True`; `approve_deposit` starts False and is set
True only inside the branch taken after the sanity check succeeds. -/
theorem C1_approve_implies_sanity (s : ClassState) (din : DocxInputs) (pin : PdfInputs)
    (r : ClassState × Output) :
    ((DocxParser.parse s din).2.approve_deposit = true →
      (DocxParser.parse s din).2.sanity_check = some true) ∧
    (PdfParser.parse s pin = Except.ok r → r.2.approve_deposit = true →
      r.2.sanity_check = some true) := by
  constructor
  · intro h
    rw [(DocxParser.parse_decision s din).2] at h
    rw [(DocxParser.parse_decision s din).1]
    exact docxDecision_approve_sanity _ _ _ _ _ _ _ h
  · intro hok happ
    obtain ⟨dt, cd, rfl⟩ := PdfParser.parse_ok_inv s pin r hok
    rw [(PdfParser.parsePure_decision s pin dt cd).2.1] at happ
    rw [(PdfParser.parsePure_decision s pin dt cd).1]
    exact pdfDecision_approve_sanity _ _ _ _ _ _ _ _ _ happ

/-- Witness for C1: a concrete approved editable-document evaluation and
a concrete approved fixed-layout evaluation, with the implications of
`C1_approve_implies_sanity` discharged on them. -/
theorem C1_witness :
    ((DocxParser.parse initClassState docxApproveInputs).2.approve_deposit = true ∧
      (DocxParser.parse initClassState docxApproveInputs).2.sanity_check = some true) ∧
    (PdfParser.parse initClassState pdfApproveInputs =
        Except.ok (PdfParser.parsePure initClassState pdfApproveInputs none none) ∧
      (PdfParser.parsePure initClassState pdfApproveInputs none none).2.approve_deposit = true ∧
      (PdfParser.parsePure initClassState pdfApproveInputs none none).2.sanity_check = some true) := by
  have h1 : (DocxParser.parse initClassState docxApproveInputs).2.approve_deposit = true := by
    unfold DocxParser.parse
    dsimp only [docxApproveInputs]
    rw [longText_long]
    decide
  have hok : PdfParser.parse initClassState pdfApproveInputs =
      Except.ok (PdfParser.parsePure initClassState pdfApproveInputs none none) := rfl
  have h2 : (PdfParser.parsePure initClassState pdfApproveInputs none none).2.approve_deposit =
      true := by
    unfold PdfParser.parsePure
    dsimp only [pdfApproveInputs]
    rw [longText_long]
    decide
  exact ⟨⟨h1, (C1_approve_implies_sanity initClassState docxApproveInputs pdfApproveInputs
      (PdfParser.parsePure initClassState pdfApproveInputs none none)).1 h1⟩,
    hok, h2, (C1_approve_implies_sanity initClassState docxApproveInputs pdfApproveInputs
      (PdfParser.parsePure initClassState pdfApproveInputs none none)).2 hok h2⟩

/-- C10: In every evaluation by either workflow, the final sanity_check
is either True or unset (None); no reachable execution ever sets
sanity_check to False. -/
theorem C10_sanity_never_false (s : ClassState) (din : DocxInputs) (pin : PdfInputs)
    (r : ClassState × Output) :
    ((DocxParser.parse s din).2.sanity_check = none ∨
      (DocxParser.parse s din).2.sanity_check = some true) ∧
    (PdfParser.parse s pin = Except.ok r →
      r.2.sanity_check = none ∨ r.2.sanity_check = some true) := by
  constructor
  · rw [(DocxParser.parse_decision s din).1]
    exact docxDecision_sanity_cases _ _ _ _ _ _ _
  · intro hok
    obtain ⟨dt, cd, rfl⟩ := PdfParser.parse_ok_inv s pin r hok
    rw [(PdfParser.parsePure_decision s pin dt cd).1]
    exact pdfDecision_sanity_cases _ _ _ _ _ _ _ _ _

/-- Witness for C10: `C10_sanity_never_false` applied to a concrete
editable-document run and a concrete fixed-layout run. -/
theorem C10_witness :
    ((DocxParser.parse initClassState docxLeakInputs).2.sanity_check = none ∨
      (DocxParser.parse initClassState docxLeakInputs).2.sanity_check = some true) ∧
    ((PdfParser.parsePure initClassState pdfLeakInputs none none).2.sanity_check = none ∨
      (PdfParser.parsePure initClassState pdfLeakInputs none none).2.sanity_check = some true) :=
  ⟨(C10_sanity_never_false initClassState docxLeakInputs pdfLeakInputs
      (PdfParser.parsePure initClassState pdfLeakInputs none none)).1,
   (C10_sanity_never_false initClassState docxLeakInputs pdfLeakInputs
      (PdfParser.parsePure initClassState pdfLeakInputs none none)).2 rfl⟩

/-- C8: `exclude_versions` is idempotent on duplicate-free candidate
sets: applying it twice with the same exclusion list yields the same
candidate set as applying it once, and excluding a version not in the
candidate set leaves the set unchanged. -/
theorem C8_exclude_versions_idempotent (pv e : List String) (v : String) (hnd : pv.Nodup) :
    exclude_versions (exclude_versions pv e) e = exclude_versions pv e ∧
    (v ∉ pv → exclude_versions pv [v] = pv) := by
  constructor
  · have h1 := exclude_versions_eq_filter pv e hnd
    have h2 := exclude_versions_eq_filter (exclude_versions pv e) e
      (exclude_versions_nodup pv e hnd)
    rw [h2, h1, List.filter_filter]
    apply List.filter_congr
    intro x _
    rw [Bool.and_self]
  · intro hv
    rw [exclude_versions_cons, List.erase_of_not_mem hv, exclude_versions_nil]

/-- Witness for C8: `C8_exclude_versions_idempotent` on the initial
candidate set, excluding `AM` twice and a version not in the set. -/
theorem C8_witness :
    [SMUR, AM, P, VOR].Nodup ∧ "preprint" ∉ [SMUR, AM, P, VOR] ∧
    exclude_versions (exclude_versions [SMUR, AM, P, VOR] [AM]) [AM] =
      exclude_versions [SMUR, AM, P, VOR] [AM] ∧
    exclude_versions [SMUR, AM, P, VOR] ["preprint"] = [SMUR, AM, P, VOR] := by
  have hnd : [SMUR, AM, P, VOR].Nodup := by decide
  have hx : "preprint" ∉ [SMUR, AM, P, VOR] := by decide
  have h := C8_exclude_versions_idempotent [SMUR, AM, P, VOR] [AM] "preprint" hnd
  exact ⟨hnd, hx, h.1, h.2 hx⟩

/-- C2 (refuted by the code, a bug): the claim says no state survives
from one evaluation into the next — each evaluation's result
accumulator should start with the full candidate set and an empty
test-result map.  Because `possible_versions` and `test_results` are
mutable class-level attributes of `ArtemisResult`, the state left by an
editable-document evaluation (candidate set narrowed to
`[SMUR, AM]`, three recorded test results) is what the next evaluation
starts from, and the next fixed-layout evaluation consequently produces
a different result than it would from the initial class state. -/
theorem C2_class_state_leaks :
    (DocxParser.parse initClassState docxLeakInputs).1.possible_versions = [SMUR, AM] ∧
    (DocxParser.parse initClassState docxLeakInputs).1.possible_versions ≠
      initClassState.possible_versions ∧
    (DocxParser.parse initClassState docxLeakInputs).1.test_results ≠ [] ∧
    PdfParser.parse (DocxParser.parse initClassState docxLeakInputs).1 pdfLeakInputs ≠
      PdfParser.parse initClassState pdfLeakInputs := by
  decide

/-- C3 counterexample: on extracted text of length 0 the length test
returns None (the Python truthiness check precedes the length
comparison), not False, and the final sanity_check stays None, not
False — the claim as stated is false at this input. -/
theorem C3_counterexample :
    test_length_of_extracted_text (some "") (3 * NUMBER_OF_CHARACTERS_IN_ONE_PAGE) ≠ some false ∧
    (DocxParser.parse initClassState docxEmptyTextInputs).2.sanity_check ≠ some false := by
  decide

/-- C3 (amended): for every document whose extracted text has length 0,
the length test returns Indeterminate (None), the final result's
sanity_check remains unset (None), and approve_deposit = False,
regardless of all other test outcomes, in both workflows. -/
theorem C3_empty_text_amended (s : ClassState) (din : DocxInputs) (pin : PdfInputs)
    (r : ClassState × Output)
    (hd : din.extracted_text = some "") (hp : pin.extracted_text = some "") :
    test_length_of_extracted_text (some "") (3 * NUMBER_OF_CHARACTERS_IN_ONE_PAGE) = none ∧
    (DocxParser.parse s din).2.sanity_check = none ∧
    (DocxParser.parse s din).2.approve_deposit = false ∧
    (PdfParser.parse s pin = Except.ok r →
      r.2.sanity_check = none ∧ r.2.approve_deposit = false) := by
  have ht : test_length_of_extracted_text (some "") (3 * NUMBER_OF_CHARACTERS_IN_ONE_PAGE) =
      none := rfl
  refine ⟨rfl, ?_, ?_, ?_⟩
  · rw [(DocxParser.parse_decision s din).1, hd, ht]
    exact (docxDecision_not_long _ none _ _ _ _ _ rfl).1
  · rw [(DocxParser.parse_decision s din).2, hd, ht]
    exact (docxDecision_not_long _ none _ _ _ _ _ rfl).2
  · intro hok
    obtain ⟨dt, cd, rfl⟩ := PdfParser.parse_ok_inv s pin r hok
    constructor
    · rw [(PdfParser.parsePure_decision s pin dt cd).1, hp, ht]
      exact (pdfDecision_not_long _ none _ _ _ _ _ _ _ rfl).1
    · rw [(PdfParser.parsePure_decision s pin dt cd).2.1, hp, ht]
      exact (pdfDecision_not_long _ none _ _ _ _ _ _ _ rfl).2

/-- Witness for C3: `C3_empty_text_amended` on concrete empty-text
evaluations in both workflows. -/
theorem C3_witness :
    docxEmptyTextInputs.extracted_text = some "" ∧
    pdfEmptyTextInputs.extracted_text = some "" ∧
    test_length_of_extracted_text (some "") (3 * NUMBER_OF_CHARACTERS_IN_ONE_PAGE) = none ∧
    (DocxParser.parse initClassState docxEmptyTextInputs).2.sanity_check = none ∧
    (DocxParser.parse initClassState docxEmptyTextInputs).2.approve_deposit = false ∧
    (PdfParser.parsePure initClassState pdfEmptyTextInputs none none).2.sanity_check = none ∧
    (PdfParser.parsePure initClassState pdfEmptyTextInputs none none).2.approve_deposit = false := by
  have h := C3_empty_text_amended initClassState docxEmptyTextInputs pdfEmptyTextInputs
    (PdfParser.parsePure initClassState pdfEmptyTextInputs none none) rfl rfl
  have hp := h.2.2.2 rfl
  exact ⟨rfl, rfl, h.1, h.2.1, h.2.2.1, hp.1, hp.2⟩

/-- C4 counterexample: with a DOI found in the extracted text and a
resolver that fails at the network level, the whole fixed-layout
evaluation aborts with the propagated exception — the pipeline does not
proceed to completion and no final result is produced, contrary to the
claim. -/
theorem C4_counterexample :
    PdfParser.parse initClassState pdfNetworkFailInputs = Except.error PyErr.requestsError := by
  decide

/-- C4 (amended): when the resolution request for a (non-empty) DOI
fails at the network level, `test_doi_resolves` does not return False —
the exception propagates out of the test uncaught — and the whole
fixed-layout evaluation aborts with that exception instead of running
the remaining tests. -/
theorem C4_network_failure_amended (s : ClassState) (pin : PdfInputs) (d : String)
    (hne : d ≠ "") (hdoi : pin.doi_in_extracted_text = some d)
    (hraise : pin.resolver d = .raise) :
    (∀ md : Option String,
      test_doi_resolves md pin.resolver (some d) = Except.error PyErr.requestsError) ∧
    PdfParser.parse s pin = Except.error PyErr.requestsError := by
  have hres : ∀ md : Option String,
      test_doi_resolves md pin.resolver (some d) = Except.error PyErr.requestsError :=
    fun md => test_doi_resolves_raise md pin.resolver d hne hraise
  refine ⟨hres, ?_⟩
  unfold PdfParser.parse
  rw [hdoi]
  dsimp only
  rw [hres pin.metadata_doi]

/-- Witness for C4: `C4_network_failure_amended` on a concrete
evaluation whose resolver raises. -/
theorem C4_witness :
    ("10.1000/xyz123" ≠ "" ∧
      pdfNetworkFailInputs.doi_in_extracted_text = some "10.1000/xyz123" ∧
      pdfNetworkFailInputs.resolver "10.1000/xyz123" = HttpOutcome.raise) ∧
    test_doi_resolves none pdfNetworkFailInputs.resolver (some "10.1000/xyz123") =
      Except.error PyErr.requestsError ∧
    PdfParser.parse initClassState pdfNetworkFailInputs = Except.error PyErr.requestsError := by
  have h := C4_network_failure_amended initClassState pdfNetworkFailInputs "10.1000/xyz123"
    (by decide) rfl rfl
  exact ⟨⟨by decide, rfl, rfl⟩, h.1 none, h.2⟩

/-- C6: for every non-empty needle, searching with max_error_ratio = 0
returns a match if and only if the haystack, after the code's
whitespace normalization, contains the needle as a case-insensitive
exact substring. -/
theorem C6_exact_match (dec : Option String) (hay needle : String) (hne : needle ≠ "") :
    (find_match_in_extracted_text dec hay (some needle) true 0 = Except.ok true ↔
      lowerChars needle <:+: lowerChars (continuousText hay)) := by
  unfold find_match_in_extracted_text
  dsimp only
  rw [if_neg hne]
  dsimp only
  split
  · constructor
    · intro h
      have hx := Except.ok.inj h
      unfold regexSearch at hx
      obtain ⟨sub, hmem, hp⟩ := List.any_eq_true.mp hx
      have hsub : sub = lowerChars needle := of_decide_eq_true hp
      subst hsub
      exact (mem_infixes _ _).mp hmem
    · intro h
      have hx : regexSearch (.plain needle) (continuousText hay) = true := by
        unfold regexSearch
        exact List.any_eq_true.mpr ⟨lowerChars needle, (mem_infixes _ _).mpr h, by simp⟩
      rw [hx]
  · exact absurd rfl (by assumption)

/-- Witness for C6: `C6_exact_match` on a concrete needle and haystack,
with the left-hand side evaluated. -/
theorem C6_witness :
    "ab" ≠ "" ∧
    find_match_in_extracted_text none "xAb" (some "ab") true 0 = Except.ok true ∧
    lowerChars "ab" <:+: lowerChars (continuousText "xAb") := by
  have hne : "ab" ≠ "" := by decide
  have hfound : find_match_in_extracted_text none "xAb" (some "ab") true 0 = Except.ok true := by
    decide
  exact ⟨hne, hfound, (C6_exact_match none "xAb" "ab" hne).mp hfound⟩

/-- C7 counterexample: with an empty needle and a declared manuscript
title occurring in the haystack, the search returns a match — it does
not fail, and no InvalidQuery error exists in the code. -/
theorem C7_counterexample :
    find_match_in_extracted_text (some "t") "t" (some "") true 0 = Except.ok true := by
  decide

/-- C7 (amended): an empty needle does not fail with an InvalidQuery
error; it falls back to the declared manuscript title (the call behaves
exactly as a call with no query), and when no declared title exists the
escape step raises a TypeError on None. -/
theorem C7_empty_query_fallback (dec : Option String) (ext : String) (esc : Bool)
    ( ratio : ℚ) :
    find_match_in_extracted_text dec ext (some "") esc ratio =
      find_match_in_extracted_text dec ext none esc ratio ∧
    find_match_in_extracted_text none ext (some "") true ratio =
      Except.error PyErr.typeError :=
  ⟨rfl, rfl⟩

/-- C5 counterexample: for needle "abcde" and max_error_ratio 0.2 the
spec's budget is floor(0.2 × 5) = 1 allowed edit, so haystack "abcdx"
(one substitution away) should match; but the code builds the pattern
`abcde` followed by `e<1` — strictly fewer than one error — and returns
no match. -/
theorem C5_counterexample :
    specErrorBudget (1/5) "abcde" = 1 ∧
    specFuzzyMatch (1/5) "abcde" "abcdx" ∧
    find_match_in_extracted_text none "abcdx" (some "abcde") true (1/5) = Except.ok false := by
  have hne : "abcde" ≠ "" := by decide
  have hr : (1/5 : ℚ) ≠ 0 := by norm_num
  have hb1 : pyInt ((1/5 : ℚ) * (("abcde".length : Nat) : ℚ)) = 1 := by
    rw [show "abcde".length = 5 from rfl]
    unfold pyInt
    norm_num
  have hb2 : pyInt ((1/5 : ℚ) * (((regexEscape "abcde").length : Nat) : ℚ)) = 1 := by
    rw [show (regexEscape "abcde").length = 5 from rfl]
    unfold pyInt
    norm_num
  refine ⟨hb1, ⟨lowerChars (continuousText "abcdx"), List.infix_refl _, ?_⟩, ?_⟩
  · show editDist (lowerChars "abcde") (lowerChars (continuousText "abcdx")) ≤
      specErrorBudget (1/5) "abcde"
    unfold specErrorBudget
    rw [hb1]
    decide
  · unfold find_match_in_extracted_text
    dsimp only
    rw [if_neg hne]
    dsimp only
    rw [if_neg hr, hb2]
    decide

/-- C5 (amended): the fuzzy search allows strictly fewer than
int(max_error_ratio × len(query)) edit operations, where len(query) is
taken after regex-escaping (the code reassigns `query =
regex.escape(query)` before computing the bound): a match is returned
iff that bound is at least 1 and some substring of the normalized
haystack is within bound − 1 edits of the needle, case-insensitively.
In particular, when the bound is 0 the fuzzy pattern can match
nothing. -/
theorem C5_error_budget_amended (dec : Option String) (hay needle : String) ( ratio : ℚ)
    (hne : needle ≠ "") (hr : ratio ≠ 0) :
    (find_match_in_extracted_text dec hay (some needle) true ratio = Except.ok true ↔
      (1 ≤ pyInt ( ratio * ((regexEscape needle).length : ℚ)) ∧
        ∃ sub, sub <:+: lowerChars (continuousText hay) ∧
          editDist (lowerChars needle) sub ≤
            pyInt ( ratio * ((regexEscape needle).length : ℚ)) - 1)) := by
  unfold find_match_in_extracted_text
  dsimp only
  rw [if_neg hne]
  dsimp only
  rw [if_neg hr]
  constructor
  · intro h
    have hx := Except.ok.inj h
    unfold regexSearch at hx
    obtain ⟨sub, hmem, hp⟩ := List.any_eq_true.mp hx
    have hlt : editDist (lowerChars needle) sub <
        pyInt ( ratio * ((regexEscape needle).length : ℚ)) :=
      of_decide_eq_true hp
    exact ⟨by omega, sub, (mem_infixes _ _).mp hmem, by omega⟩
  · rintro ⟨hb1, sub, hinf, hle⟩
    have hx : regexSearch
        (.fuzzyLt needle (pyInt ( ratio * ((regexEscape needle).length : ℚ))))
        (continuousText hay) = true := by
      unfold regexSearch
      exact List.any_eq_true.mpr
        ⟨sub, (mem_infixes _ _).mpr hinf, decide_eq_true (by omega)⟩
    rw [hx]

/-- Witness for C5: `C5_error_budget_amended` at a concrete needle,
ratio and haystack, with the left-hand side evaluated. -/
theorem C5_witness :
    ("abcde" ≠ "" ∧ (1/5 : ℚ) ≠ 0) ∧
    find_match_in_extracted_text none "abcde" (some "abcde") true (1/5) = Except.ok true ∧
    (1 ≤ pyInt ((1/5 : ℚ) * ((regexEscape "abcde").length : ℚ)) ∧
      ∃ sub, sub <:+: lowerChars (continuousText "abcde") ∧
        editDist (lowerChars "abcde") sub ≤
          pyInt ((1/5 : ℚ) * ((regexEscape "abcde").length : ℚ)) - 1) := by
  have hne : "abcde" ≠ "" := by decide
  have hr : (1/5 : ℚ) ≠ 0 := by norm_num
  have hb2 : pyInt ((1/5 : ℚ) * (((regexEscape "abcde").length : Nat) : ℚ)) = 1 := by
    rw [show (regexEscape "abcde").length = 5 from rfl]
    unfold pyInt
    norm_num
  have hfound : find_match_in_extracted_text none "abcde" (some "abcde") true (1/5) =
      Except.ok true := by
    unfold find_match_in_extracted_text
    dsimp only
    rw [if_neg hne]
    dsimp only
    rw [if_neg hr, hb2]
    decide
  exact ⟨⟨hne, hr⟩, hfound,
    (C5_error_budget_amended none "abcde" "abcde" (1/5) hne hr).mp hfound⟩

/-- C9: for every fixed-layout document that passes the sanity check,
has at least one publisher metadata tag present with a non-empty value,
has no CC licence match, and declares version "accepted manuscript":
the final result has approve_deposit = False, the reason states it is
publisher-generated with no licence evidence, and Submitted and
Accepted are excluded from the candidate set with their display weights
set to zero. -/
theorem C9_publisher_no_licence (s : ClassState) (pin : PdfInputs) (r : ClassState × Output)
    (hnd : s.possible_versions.Nodup)
    (htags : extract_publisher_tags_from_file_metadata pin.file_metadata ≠ [])
    (hcc : pin.cc_match_extracted_text = none)
    (hver : pin.dec_version = "accepted manuscript")
    (hsan : (pyTruthy (test_length_of_extracted_text pin.extracted_text
          (3 * NUMBER_OF_CHARACTERS_IN_ONE_PAGE)) &&
        (pyTruthy pin.title_match_file_metadata || pyTruthy pin.title_match_extracted_text)) =
        true)
    (hok : PdfParser.parse s pin = Except.ok r) :
    r.2.approve_deposit = false ∧
    r.2.reason = some "Publisher-generated version; no evidence of CC licence" ∧
    SMUR ∉ r.1.possible_versions ∧ AM ∉ r.1.possible_versions ∧
    r.2.smur_prob = 0 ∧ r.2.am_prob = 0 := by
  obtain ⟨dt, cd, rfl⟩ := PdfParser.parse_ok_inv s pin r hok
  have hd := PdfParser.parsePure_decision s pin dt cd
  rw [hcc] at hd
  have hdec := pdfDecision_publisher_no_cc (pdfPvBeforeDecision s pin)
    (test_length_of_extracted_text pin.extracted_text (3 * NUMBER_OF_CHARACTERS_IN_ONE_PAGE))
    pin.title_match_file_metadata pin.title_match_extracted_text
    (extract_publisher_tags_from_file_metadata pin.file_metadata)
    pin.dec_version pin.dec_ms_title pin.file_name hsan htags
  refine ⟨?_, ?_, ?_, ?_, ?_, ?_⟩
  · rw [hd.2.1, hdec]
  · rw [hd.2.2.1, hdec]
  · rw [hd.2.2.2.1, hdec]
    exact not_mem_exclude_versions _ _ _ (pdfPvBeforeDecision_nodup s pin hnd) (by simp)
  · rw [hd.2.2.2.1, hdec]
    exact not_mem_exclude_versions _ _ _ (pdfPvBeforeDecision_nodup s pin hnd) (by decide)
  · rw [hd.2.2.2.2.1, if_pos htags]
  · rw [hd.2.2.2.2.2, if_pos htags]

/-- Witness for C9: `C9_publisher_no_licence` on a concrete publisher
PDF evaluation with a non-empty `/doi` metadata tag and no licence. -/
theorem C9_witness :
    (initClassState.possible_versions.Nodup ∧
      extract_publisher_tags_from_file_metadata pdfPublisherInputs.file_metadata ≠ [] ∧
      pdfPublisherInputs.cc_match_extracted_text = none ∧
      pdfPublisherInputs.dec_version = "accepted manuscript" ∧
      PdfParser.parse initClassState pdfPublisherInputs =
        Except.ok (PdfParser.parsePure initClassState pdfPublisherInputs none none)) ∧
    ((PdfParser.parsePure initClassState pdfPublisherInputs none none).2.approve_deposit =
        false ∧
      (PdfParser.parsePure initClassState pdfPublisherInputs none none).2.reason =
        some "Publisher-generated version; no evidence of CC licence" ∧
      SMUR ∉ (PdfParser.parsePure initClassState pdfPublisherInputs none none).1.possible_versions ∧
      AM ∉ (PdfParser.parsePure initClassState pdfPublisherInputs none none).1.possible_versions ∧
      (PdfParser.parsePure initClassState pdfPublisherInputs none none).2.smur_prob = 0 ∧
      (PdfParser.parsePure initClassState pdfPublisherInputs none none).2.am_prob = 0) := by
  have hnd : initClassState.possible_versions.Nodup := by decide
  have htags : extract_publisher_tags_from_file_metadata pdfPublisherInputs.file_metadata ≠
      [] := by decide
  have hsan : (pyTruthy (test_length_of_extracted_text pdfPublisherInputs.extracted_text
        (3 * NUMBER_OF_CHARACTERS_IN_ONE_PAGE)) &&
      (pyTruthy pdfPublisherInputs.title_match_file_metadata ||
        pyTruthy pdfPublisherInputs.title_match_extracted_text)) = true := by
    rw [show test_length_of_extracted_text pdfPublisherInputs.extracted_text
        (3 * NUMBER_OF_CHARACTERS_IN_ONE_PAGE) = some true from longText_long]
    decide
  exact ⟨⟨hnd, htags, rfl, rfl, rfl⟩,
    C9_publisher_no_licence initClassState pdfPublisherInputs
      (PdfParser.parsePure initClassState pdfPublisherInputs none none)
      hnd htags rfl rfl hsan rfl⟩

end Artemis
